import Mathlib

/-!
Verification development for the method-call-ui repository.

The repository is a small real-time call-graph visualizer:
* `src/be/server.js` — an HTTP ingestion endpoint that validates a posted
  stack-frame payload and broadcasts it to all connected viewers.
* `src/fe/src/App.js` — the viewer: it folds each received payload into a
  running Cytoscape element list (`addStackFrameToGraph`), renders heat
  tiers from occurrence counts, and exports the graph to Mermaid text
  (`exportToMermaid`).

The definitions below are a shallow embedding of that JavaScript, translated
directly from the source.  JavaScript `undefined`-able values are modelled as
`Option`, template-literal interpolation of possibly-missing values by
`jsShow`/`jsShowInt` (JS prints `undefined`), and the element state is the
plain list of Cytoscape element records that `App.js` keeps in React state.
-/

/-- One stack frame of a posted call sequence.  Fields are `Option` because a
JSON producer may omit any of them (the server never inspects frames, and the
viewer interpolates missing fields as the string `undefined`). -/
structure CallFrame where
  file : Option String
  lineNumber : Option Int
  structureName : Option String
  methodName : Option String
deriving DecidableEq

/-- JS template-literal rendering of a possibly-undefined string value. -/
def jsShow : Option String → String
  | some s => s
  | none => "undefined"

/-- JS template-literal rendering of a possibly-undefined integer value. -/
def jsShowInt : Option Int → String
  | some n => toString n
  | none => "undefined"

/-- The character class `[a-zA-Z0-9]` used by the two `replace` calls in
`App.js` (node-id sanitization and Mermaid-id cleaning). -/
def isAlphaNumChar (c : Char) : Bool :=
  ('a' ≤ c && c ≤ 'z') || ('A' ≤ c && c ≤ 'Z') || ('0' ≤ c && c ≤ '9')

/-- `.replace(/[^a-zA-Z0-9]/g, '_')` from `generateNodeId` (App.js line 99). -/
def sanitizeId (s : List Char) : List Char :=
  s.map (fun c => if isAlphaNumChar c then c else '_')

/-- `generateNodeId` (App.js lines 98-100):
`` `${frame.file}-${frame.structureName}-${frame.methodName}`.replace(/[^a-zA-Z0-9]/g, '_') ``.
Note that `lineNumber` does not appear. -/
def generateNodeId (frame : CallFrame) : String :=
  String.mk (sanitizeId
    (jsShow frame.file ++ "-" ++ jsShow frame.structureName ++ "-" ++
      jsShow frame.methodName).data)

/-- `generateLabelWithCount` (App.js lines 93-95):
`` `${file}:${lineNumber}\n${structureName}:${methodName}()` ``.
The `count` parameter is accepted but unused, exactly as in the source. -/
def generateLabelWithCount (file : Option String) (lineNumber : Option Int)
    (structureName : Option String) (methodName : Option String) (count : Nat) : String :=
  jsShow file ++ ":" ++ jsShowInt lineNumber ++ "\n" ++
    jsShow structureName ++ ":" ++ jsShow methodName ++ "()"

/-- The `data` record of a Cytoscape element as built by `App.js`.  Nodes set
the frame fields and leave `source`/`target` absent; edges set
`source`/`target` and leave the frame fields and `label` absent. -/
structure ElemData where
  id : String
  label : Option String
  file : Option String
  lineNumber : Option Int
  structureName : Option String
  methodName : Option String
  count : Nat
  source : Option String
  target : Option String
deriving DecidableEq

/-- A Cytoscape element `{ data: {...} }` as stored in the React state. -/
structure Element where
  data : ElemData
deriving DecidableEq

/-- The node element pushed for one frame (App.js lines 106-116). -/
def nodeElementOf (frame : CallFrame) : Element :=
  ⟨{ id := generateNodeId frame
   , label := some (generateLabelWithCount frame.file frame.lineNumber
       frame.structureName frame.methodName 1)
   , file := frame.file
   , lineNumber := frame.lineNumber
   , structureName := frame.structureName
   , methodName := frame.methodName
   , count := 1
   , source := none
   , target := none }⟩

/-- The edge element pushed for two consecutive frames (App.js lines 118-132):
`` edgeId = `${nodeId}->${nextNodeId}` ``. -/
def edgeElementOf (frame nextFrame : CallFrame) : Element :=
  ⟨{ id := generateNodeId frame ++ "->" ++ generateNodeId nextFrame
   , label := none
   , file := none
   , lineNumber := none
   , structureName := none
   , methodName := none
   , count := 1
   , source := some (generateNodeId frame)
   , target := some (generateNodeId nextFrame) }⟩

/-- The `newElements` array built by the `sequence.forEach` loop
(App.js lines 102-133): one node per frame, plus one edge between each pair
of consecutive frames. -/
def buildNewElements : List CallFrame → List Element
  | [] => []
  | [frame] => [nodeElementOf frame]
  | frame :: nextFrame :: rest =>
      nodeElementOf frame :: edgeElementOf frame nextFrame ::
        buildNewElements (nextFrame :: rest)

/-- `existingElementsMap` (App.js lines 140-141): a `Map` keyed by element id,
populated from `prevElements` in order, so a later element with the same id
shadows an earlier one.  Modelled as a lookup function. -/
def buildElementsMap (prevElements : List Element) : String → Option Element :=
  prevElements.foldl
    (fun m el => fun k => if k == el.data.id then some el else m k)
    (fun _ => none)

/-- The replacement element built in the update branch (App.js lines 158-171):
the existing element's data is spread, the count becomes
`existingEl.data.count + 1`, and the label is regenerated from the *existing*
element's fields (so the stored `lineNumber` is the old one). -/
def updatedElementFrom (existingEl : Element) : Element :=
  ⟨{ existingEl.data with
     count := existingEl.data.count + 1
   , label := some (generateLabelWithCount existingEl.data.file
       existingEl.data.lineNumber existingEl.data.structureName
       existingEl.data.methodName (existingEl.data.count + 1)) }⟩

/-- One iteration of the `newElements.forEach` loop (App.js lines 146-177).
If the id is found in `existingElementsMap`, the element at the first index
with that id is replaced by the incremented copy (`List.set` past the end is
a no-op, matching the `index !== -1` guard); otherwise the new element is
pushed at the end. -/
def applyNewElement (emap : String → Option Element)
    (updatedElements : List Element) (newEl : Element) : List Element :=
  match emap newEl.data.id with
  | some existingEl =>
      updatedElements.set
        (updatedElements.findIdx (fun el => el.data.id == newEl.data.id))
        (updatedElementFrom existingEl)
  | none => updatedElements ++ [newEl]

/-- The functional state update passed to `setElements`
(App.js lines 138-180). -/
def mergeNewElements (prevElements newElements : List Element) : List Element :=
  newElements.foldl (applyNewElement (buildElementsMap prevElements)) prevElements

/-- A JavaScript value sitting in the `sequence` field of a posted payload:
missing (`undefined`), an array of frames, or any other value with its
truthiness. -/
inductive JsVal where
  | undef
  | arr (frames : List CallFrame)
  | other (truthy : Bool)
deriving DecidableEq

/-- JS truthiness: `undefined` is falsy, every array is truthy. -/
def JsVal.truthy : JsVal → Bool
  | .undef => false
  | .arr _ => true
  | .other t => t

/-- `Array.isArray`. -/
def JsVal.isArray : JsVal → Bool
  | .arr _ => true
  | _ => false

/-- A posted stack-frame payload object; `none` at the use sites models a
falsy `stackFrameData`/`req.body`. -/
structure Payload where
  sequence : JsVal
deriving DecidableEq

/-- The guard `!stackFrameData || !stackFrameData.sequence ||
!Array.isArray(stackFrameData.sequence)` shared verbatim by the server
endpoint (server.js line 37) and the viewer merge (App.js line 84). -/
def isValidStackFrameData : Option Payload → Bool
  | none => false
  | some d => d.sequence.truthy && d.sequence.isArray

/-- Destructuring `const { sequence } = stackFrameData` once the guard has
established it is an array. -/
def sequenceOf : Option Payload → List CallFrame
  | some ⟨JsVal.arr frames⟩ => frames
  | _ => []

/-- `addStackFrameToGraph` (App.js lines 81-181) as a state transformer:
invalid data returns without touching the state; otherwise the built
`newElements` are folded into the previous elements. -/
def addStackFrameToGraph (stackFrameData : Option Payload)
    (elements : List Element) : List Element :=
  if isValidStackFrameData stackFrameData then
    mergeNewElements elements (buildNewElements (sequenceOf stackFrameData))
  else
    elements

/-- The Clear Graph button (App.js lines 429-436): `setElements([])`. -/
def clearGraph : List Element := []

/-- The element state reached by delivering a list of payloads, in order, to
`addStackFrameToGraph` starting from the initial empty state
(`useState([])`, App.js line 73). -/
def runMerges (ops : List (Option Payload)) : List Element :=
  ops.foldl (fun s op => addStackFrameToGraph op s) []

/-- `elements.find(...)`-style first element with a given id; this is the
element the `findIndex` update path targets and the one a consumer keyed by
id sees first. -/
def firstElemWithId (s : List Element) (k : String) : Option Element :=
  s.find? (fun el => el.data.id == k)

/-- The multiset (in list order) of occurrence counts stored for a given id. -/
def countsOf (s : List Element) (k : String) : List Nat :=
  ((s.filter fun el => el.data.id == k).map fun el => el.data.count)

/-- The outcome of `POST /api/stackframes` (server.js lines 33-48). -/
inductive PostResult where
  | rejected (status : Nat) (error : String)
  | accepted (status : Nat) (message : String) (broadcast : Payload)
deriving DecidableEq

/-- The `/api/stackframes` handler (server.js lines 33-48): reject with 400
unless the body is truthy with a truthy array `sequence`; otherwise emit the
payload unchanged to all sockets and answer 200. -/
def handleStackFrames (body : Option Payload) : PostResult :=
  match body with
  | none => .rejected 400 "Invalid stack frame data"
  | some stackFrameData =>
      if stackFrameData.sequence.truthy && stackFrameData.sequence.isArray then
        .accepted 200 "Stack frame data received and broadcast" stackFrameData
      else
        .rejected 400 "Invalid stack frame data"

/-- `.replace(/[^a-zA-Z0-9]/g, '0')` from `exportToMermaid`
(App.js lines 23, 42, 43). -/
def cleanMermaidId (s : List Char) : List Char :=
  s.map (fun c => if isAlphaNumChar c then c else '0')

/-- `nodeLabel.replace(/\n/g, '<br>')` (App.js line 28), character by
character. -/
def replaceNewlines : List Char → List Char
  | [] => []
  | c :: rest =>
      if c = '\n' then '<' :: 'b' :: 'r' :: '>' :: replaceNewlines rest
      else c :: replaceNewlines rest

/-- `node.data.label || node.data.id` (App.js line 27): JS `||` falls through
on `undefined` and on the empty string. -/
def jsStringOr (v : Option String) (dflt : String) : String :=
  match v with
  | some s => if s = "" then dflt else s
  | none => dflt

/-- One node-definition line of the Mermaid output (App.js lines 21-32):
`` `    ${cleanId}["${nodeLabel}"];\n` ``. -/
def mermaidNodeLine (node : Element) : String :=
  let cleanId := String.mk (cleanMermaidId node.data.id.data)
  let nodeLabel := String.mk (replaceNewlines (jsStringOr node.data.label node.data.id).data)
  "    " ++ cleanId ++ "[\"" ++ nodeLabel ++ "\"];\n"

/-- One edge line of the Mermaid output (App.js lines 40-55):
`` `    ${sourceId} -->` `` plus the optional `` ` |${count}|` `` label plus
`` ` ${targetId};\n` ``.  `edge.data.count ?` is JS truthiness on a number. -/
def mermaidEdgeLine (edge : Element) : String :=
  let sourceId := String.mk (cleanMermaidId (jsShow edge.data.source).data)
  let targetId := String.mk (cleanMermaidId (jsShow edge.data.target).data)
  let edgeLabel := if edge.data.count != 0 then " |" ++ toString edge.data.count ++ "|" else ""
  "    " ++ sourceId ++ " -->" ++ edgeLabel ++ " " ++ targetId ++ ";\n"

/-- `exportToMermaid` (App.js lines 12-59) over the node and edge arrays that
`cy.json().elements` exposes: the header, one definition line per node, a
blank separator line, then one line per edge. -/
def exportToMermaid (nodes edges : List Element) : String :=
  let afterNodes := nodes.foldl (fun acc node => acc ++ mermaidNodeLine node) "flowchart TD\n"
  edges.foldl (fun acc edge => acc ++ mermaidEdgeLine edge) (afterNodes ++ "\n")

/-- Cytoscape selector `node[count <= 3]` (App.js line 264). -/
def nodeSelVeryLow (count : Nat) : Bool := count ≤ 3

/-- Cytoscape selector `node[count > 3][count <= 7]` (App.js line 272). -/
def nodeSelLow (count : Nat) : Bool := 3 < count && count ≤ 7

/-- Cytoscape selector `node[count > 7][count <= 15]` (App.js line 281). -/
def nodeSelMedium (count : Nat) : Bool := 7 < count && count ≤ 15

/-- Cytoscape selector `node[count > 15][count <= 30]` (App.js line 289). -/
def nodeSelHigh (count : Nat) : Bool := 15 < count && count ≤ 30

/-- Cytoscape selector `node[count > 30]` (App.js line 297). -/
def nodeSelVeryHigh (count : Nat) : Bool := 30 < count

/-- Cytoscape selector `edge[count <= 3]` (App.js line 324). -/
def edgeSelVeryLow (count : Nat) : Bool := count ≤ 3

/-- Cytoscape selector `edge[count > 3][count <= 7]` (App.js line 333). -/
def edgeSelLow (count : Nat) : Bool := 3 < count && count ≤ 7

/-- Cytoscape selector `edge[count > 7][count <= 15]` (App.js line 342). -/
def edgeSelMedium (count : Nat) : Bool := 7 < count && count ≤ 15

/-- Cytoscape selector `edge[count > 15][count <= 30]` (App.js line 351). -/
def edgeSelHigh (count : Nat) : Bool := 15 < count && count ≤ 30

/-- Cytoscape selector `edge[count > 30]` (App.js line 360). -/
def edgeSelVeryHigh (count : Nat) : Bool := 30 < count

/-- How many of the five node heat selectors match a given count. -/
def nodeHeatMatchCount (count : Nat) : Nat :=
  (if nodeSelVeryLow count then 1 else 0) + (if nodeSelLow count then 1 else 0) +
    (if nodeSelMedium count then 1 else 0) + (if nodeSelHigh count then 1 else 0) +
    (if nodeSelVeryHigh count then 1 else 0)

/-- How many of the five edge heat selectors match a given count. -/
def edgeHeatMatchCount (count : Nat) : Nat :=
  (if edgeSelVeryLow count then 1 else 0) + (if edgeSelLow count then 1 else 0) +
    (if edgeSelMedium count then 1 else 0) + (if edgeSelHigh count then 1 else 0) +
    (if edgeSelVeryHigh count then 1 else 0)

/-- The ordinal of the node heat tier a count falls in (0 = very low). -/
def nodeHeatTier (count : Nat) : Nat :=
  if nodeSelVeryLow count then 0
  else if nodeSelLow count then 1
  else if nodeSelMedium count then 2
  else if nodeSelHigh count then 3
  else 4

/-- The ordinal of the edge heat tier a count falls in (0 = very low). -/
def edgeHeatTier (count : Nat) : Nat :=
  if edgeSelVeryLow count then 0
  else if edgeSelLow count then 1
  else if edgeSelMedium count then 2
  else if edgeSelHigh count then 3
  else 4

/-- The accumulator invariant that holds on every reachable element state:
for each id, every element after the first with that id has count 1, and when
such later duplicates exist the first element's count is at most 2.
Duplicate-id entries are exactly the residue of repeating a fresh id inside a
single sequence (the stale-map batch bug); the merge never lets their counts
grow past this shape. -/
def GraphCountInv (s : List Element) : Prop :=
  ∀ k c rest, countsOf s k = c :: rest →
    (∀ x ∈ rest, x = 1) ∧ (rest ≠ [] → c ≤ 2)

/-- Relation between the state before a merge and the state while the
`newElements.forEach` loop runs: per id, either nothing has been touched yet,
or the first occurrence has been replaced by the incremented copy of the
element the (stale) `existingElementsMap` holds for that id; ids absent from
the map only ever receive fresh count-1 entries. -/
def MergeView (prev u : List Element) : Prop :=
  ∀ k : String,
    (buildElementsMap prev k = none →
      ∀ el ∈ u.filter (fun el => el.data.id == k), el.data.count = 1) ∧
    (∀ ex, buildElementsMap prev k = some ex →
      u.filter (fun el => el.data.id == k) = prev.filter (fun el => el.data.id == k) ∨
      u.filter (fun el => el.data.id == k) =
        updatedElementFrom ex :: (prev.filter (fun el => el.data.id == k)).tail)

/-! ### Helper lemmas about the merge algorithm -/

theorem buildElementsMap_foldl (s : List Element) :
    ∀ (mm : String → Option Element) (k : String),
      (s.foldl (fun m el => fun k2 => if k2 == el.data.id then some el else m k2) mm) k =
        ((s.reverse.find? (fun el => el.data.id == k)).or (mm k)) := by
  induction s with
  | nil => intro mm k; rfl
  | cons a rest ih =>
      intro mm k
      rw [List.foldl_cons, ih]
      simp only [List.reverse_cons, List.find?_append]
      cases hf : rest.reverse.find? (fun el => el.data.id == k) with
      | some e => simp [Option.or]
      | none =>
          simp only [Option.or]
          by_cases hk : (a.data.id == k) = true
          · have hk2 : (k == a.data.id) = true := by
              rw [beq_iff_eq] at hk ⊢
              exact hk.symm
            simp [List.find?_cons, hk, hk2]
          · have hk1 : (a.data.id == k) = false := Bool.of_not_eq_true hk
            have hk2 : (k == a.data.id) = false := by
              rw [beq_eq_false_iff_ne] at hk1 ⊢
              exact fun h => hk1 h.symm
            simp [List.find?_cons, hk1, hk2]

theorem buildElementsMap_eq (s : List Element) (k : String) :
    buildElementsMap s k = s.reverse.find? (fun el => el.data.id == k) := by
  rw [buildElementsMap, buildElementsMap_foldl]
  simp

theorem buildElementsMap_eq_getLast (s : List Element) (k : String) :
    buildElementsMap s k = (s.filter (fun el => el.data.id == k)).getLast? := by
  rw [buildElementsMap_eq, List.filter_getLast?]

theorem buildElementsMap_none (s : List Element) (k : String)
    (h : buildElementsMap s k = none) : s.filter (fun el => el.data.id == k) = [] := by
  rw [buildElementsMap_eq_getLast] at h
  exact List.getLast?_eq_none_iff.mp h

theorem buildElementsMap_some_id (s : List Element) (k : String) (ex : Element)
    (h : buildElementsMap s k = some ex) : (ex.data.id == k) = true := by
  rw [buildElementsMap_eq] at h
  have h2 := List.find?_some h
  exact h2

theorem buildElementsMap_some_ne_nil (s : List Element) (k : String) (ex : Element)
    (h : buildElementsMap s k = some ex) : s.filter (fun el => el.data.id == k) ≠ [] := by
  rw [buildElementsMap_eq_getLast] at h
  intro hnil
  rw [hnil] at h
  cases h

theorem buildElementsMap_some_tail (s : List Element) (k : String) (ex e : Element)
    (tl : List Element) (h : buildElementsMap s k = some ex)
    (hf : s.filter (fun el => el.data.id == k) = e :: tl) (htl : tl ≠ []) : ex ∈ tl := by
  rw [buildElementsMap_eq_getLast, hf] at h
  cases tl with
  | nil => exact absurd rfl htl
  | cons b tl2 =>
      rw [List.getLast?_cons_cons] at h
      exact List.mem_of_getLast?_eq_some h
theorem filter_set_findIdx (pb : Element → Bool) (v : Element) (hv : pb v = true) :
    ∀ (s : List Element), s.filter pb ≠ [] →
      (s.set (s.findIdx pb) v).filter pb = v :: (s.filter pb).tail := by
  intro s
  induction s with
  | nil => intro h; exact absurd rfl h
  | cons a t ih =>
      intro hne
      rw [List.findIdx_cons]
      by_cases ha : pb a = true
      · simp only [ha, cond_true, List.set_cons_zero]
        rw [List.filter_cons_of_pos hv, List.filter_cons_of_pos ha, List.tail_cons]
      · have ha' : pb a = false := Bool.of_not_eq_true ha
        simp only [ha', cond_false, List.set_cons_succ]
        rw [List.filter_cons_of_neg (by simp [ha']), List.filter_cons_of_neg (by simp [ha'])]
        apply ih
        rw [List.filter_cons_of_neg (by simp [ha'])] at hne
        exact hne

theorem filter_set_findIdx_other (pa pb : Element → Bool) (v : Element)
    (hv : pb v = false) (himp : ∀ el, pa el = true → pb el = false) :
    ∀ (s : List Element), (s.set (s.findIdx pa) v).filter pb = s.filter pb := by
  intro s
  induction s with
  | nil => rfl
  | cons a t ih =>
      rw [List.findIdx_cons]
      by_cases ha : pa a = true
      · simp only [ha, cond_true, List.set_cons_zero]
        rw [List.filter_cons_of_neg (by simp [hv]), List.filter_cons_of_neg (by simp [himp a ha])]
      · have ha' : pa a = false := Bool.of_not_eq_true ha
        simp only [ha', cond_false, List.set_cons_succ]
        by_cases hb : pb a = true
        · rw [List.filter_cons_of_pos hb, List.filter_cons_of_pos hb, ih]
        · have hb' : pb a = false := Bool.of_not_eq_true hb
          rw [List.filter_cons_of_neg (by simp [hb']), List.filter_cons_of_neg (by simp [hb']), ih]

theorem buildNewElements_count_one :
    ∀ (seq : List CallFrame), ∀ e ∈ buildNewElements seq, e.data.count = 1 := by
  intro seq
  induction seq with
  | nil => intro e he; cases he
  | cons f rest ih =>
      cases rest with
      | nil =>
          intro e he
          simp only [buildNewElements, List.mem_singleton] at he
          subst he; rfl
      | cons g rest2 =>
          intro e he
          simp only [buildNewElements, List.mem_cons] at he
          rcases he with rfl | rfl | he
          · rfl
          · rfl
          · exact ih e he

theorem applyNewElement_view (prev u : List Element) (newEl : Element)
    (hcnt : newEl.data.count = 1) (hview : MergeView prev u) :
    MergeView prev (applyNewElement (buildElementsMap prev) u newEl) := by
  unfold applyNewElement
  cases hm : buildElementsMap prev newEl.data.id with
  | none =>
      intro k
      constructor
      · intro hk el hel
        rw [List.filter_append] at hel
        rcases List.mem_append.mp hel with h | h
        · exact ((hview k).1 hk) el h
        · rcases List.mem_filter.mp h with ⟨hmem, _⟩
          rw [List.mem_singleton] at hmem
          subst hmem
          exact hcnt
      · intro ex hk
        have hkn : ¬ (k = newEl.data.id) := by
          rintro rfl
          rw [hm] at hk
          cases hk
        have hfalse : (newEl.data.id == k) = false := by
          rw [beq_eq_false_iff_ne]
          exact fun h => hkn h.symm
        rw [List.filter_append]
        have hsingle : List.filter (fun el => el.data.id == k) [newEl] = [] := by
          simp [List.filter_cons, hfalse]
        rw [hsingle, List.append_nil]
        exact (hview k).2 ex hk
  | some ex =>
      have hexid : ex.data.id = newEl.data.id := by
        have h2 := buildElementsMap_some_id prev newEl.data.id ex hm
        rw [beq_iff_eq] at h2
        exact h2
      intro k
      by_cases hkk : k = newEl.data.id
      · subst hkk
        constructor
        · intro hk
          rw [hk] at hm
          cases hm
        · intro ex2 hk
          rw [hm] at hk
          injection hk with h2
          subst h2
          right
          have hprevne := buildElementsMap_some_ne_nil prev newEl.data.id ex hm
          have hvu : ((updatedElementFrom ex).data.id == newEl.data.id) = true := by
            show (ex.data.id == newEl.data.id) = true
            rw [beq_iff_eq]
            exact hexid
          rcases (hview newEl.data.id).2 ex hm with hu | hu
          · rw [filter_set_findIdx _ _ hvu u (by rw [hu]; exact hprevne)]
            rw [hu]
          · rw [filter_set_findIdx _ _ hvu u (by rw [hu]; simp)]
            rw [hu, List.tail_cons]
      · have hvfalse : ((updatedElementFrom ex).data.id == k) = false := by
          show (ex.data.id == k) = false
          rw [beq_eq_false_iff_ne, hexid]
          exact fun h => hkk h.symm
        have himp : ∀ el : Element,
            (el.data.id == newEl.data.id) = true → (el.data.id == k) = false := by
          intro el h
          rw [beq_iff_eq] at h
          rw [beq_eq_false_iff_ne, h]
          exact fun h2 => hkk h2.symm
        rw [filter_set_findIdx_other _ _ _ hvfalse himp u]
        exact hview k

theorem mergeView_refl (prev : List Element) : MergeView prev prev := by
  intro k
  constructor
  · intro hk el hel
    rw [buildElementsMap_none prev k hk] at hel
    cases hel
  · intro ex _
    exact Or.inl rfl

theorem mergeNewElements_view (prev : List Element) (newEls : List Element)
    (hc : ∀ e ∈ newEls, e.data.count = 1) :
    MergeView prev (mergeNewElements prev newEls) := by
  rw [mergeNewElements]
  have hfold : ∀ (l : List Element) (u : List Element),
      (∀ e ∈ l, e.data.count = 1) → MergeView prev u →
      MergeView prev (l.foldl (applyNewElement (buildElementsMap prev)) u) := by
    intro l
    induction l with
    | nil => intro u _ h; exact h
    | cons a rest ih =>
        intro u hcl hview
        rw [List.foldl_cons]
        exact ih _ (fun e he => hcl e (List.mem_cons_of_mem _ he))
          (applyNewElement_view prev u a (hcl a (List.mem_cons_self _ _)) hview)
  exact hfold newEls prev hc (mergeView_refl prev)

theorem mergeNewElements_mono (prev newEls : List Element)
    (hc : ∀ e ∈ newEls, e.data.count = 1) (hinv : GraphCountInv prev)
    (k : String) (e : Element) (h : firstElemWithId prev k = some e) :
    ∃ e2, firstElemWithId (mergeNewElements prev newEls) k = some e2 ∧
      e.data.count ≤ e2.data.count := by
  have hview := mergeNewElements_view prev newEls hc
  have hh : (prev.filter (fun el => el.data.id == k)).head? = some e := by
    rw [List.filter_head?]
    exact h
  cases hf : prev.filter (fun el => el.data.id == k) with
  | nil =>
      rw [hf] at hh
      cases hh
  | cons e0 tl =>
      rw [hf] at hh
      have he0 : e0 = e := by
        simp only [List.head?_cons, Option.some.injEq] at hh
        exact hh
      subst he0
      cases hmk : buildElementsMap prev k with
      | none =>
          have := buildElementsMap_none prev k hmk
          rw [hf] at this
          cases this
      | some ex =>
          rcases (hview k).2 ex hmk with hu | hu
          · refine ⟨e0, ?_, le_refl _⟩
            rw [firstElemWithId, ← List.filter_head?, hu, hf]
            simp
          · refine ⟨updatedElementFrom ex, ?_, ?_⟩
            · rw [firstElemWithId, ← List.filter_head?, hu]
              simp
            · have hcount : (updatedElementFrom ex).data.count = ex.data.count + 1 := rfl
              rw [hcount]
              cases htl : tl with
              | nil =>
                  have hexe : ex = e0 := by
                    rw [buildElementsMap_eq_getLast, hf, htl] at hmk
                    simp only [List.getLast?_singleton, Option.some.injEq] at hmk
                    exact hmk.symm
                  rw [hexe]
                  exact Nat.le_succ _
              | cons b tl2 =>
                  have hextl : ex ∈ tl :=
                    buildElementsMap_some_tail prev k ex e0 tl hmk hf (by rw [htl]; simp)
                  have hcounts : countsOf prev k =
                      e0.data.count :: tl.map (fun el => el.data.count) := by
                    rw [countsOf, hf]
                    rfl
                  rcases hinv k _ _ hcounts with ⟨hall, hle2⟩
                  have hex1 : ex.data.count = 1 :=
                    hall _ (List.mem_map_of_mem _ hextl)
                  have he2 : e0.data.count ≤ 2 := by
                    apply hle2
                    rw [htl]
                    simp
                  rw [hex1]
                  omega

theorem mergeNewElements_inv (prev newEls : List Element)
    (hc : ∀ e ∈ newEls, e.data.count = 1) (hinv : GraphCountInv prev) :
    GraphCountInv (mergeNewElements prev newEls) := by
  have hview := mergeNewElements_view prev newEls hc
  intro k c rest hcr
  rw [countsOf] at hcr
  cases hfr : (mergeNewElements prev newEls).filter (fun el => el.data.id == k) with
  | nil =>
      rw [hfr] at hcr
      cases hcr
  | cons f0 frest =>
      rw [hfr] at hcr
      simp only [List.map_cons, List.cons.injEq] at hcr
      obtain ⟨hc0, hcrest⟩ := hcr
      cases hmk : buildElementsMap prev k with
      | none =>
          have hall := (hview k).1 hmk
          rw [hfr] at hall
          constructor
          · intro x hx
            rw [← hcrest] at hx
            rcases List.mem_map.mp hx with ⟨el, hel, hcel⟩
            rw [← hcel]
            exact hall el (List.mem_cons_of_mem _ hel)
          · intro _
            have : f0.data.count = 1 := hall f0 (List.mem_cons_self _ _)
            omega
      | some ex =>
          rcases (hview k).2 ex hmk with hu | hu
          · apply hinv k
            rw [countsOf, ← hu, hfr]
            simp only [List.map_cons]
            rw [hc0, hcrest]
          · have hne := buildElementsMap_some_ne_nil prev k ex hmk
            cases hfp : prev.filter (fun el => el.data.id == k) with
            | nil => exact absurd hfp hne
            | cons e tl =>
                rw [hu, hfp, List.tail_cons] at hfr
                injection hfr with h1 h2
                have hcounts : countsOf prev k =
                    e.data.count :: tl.map (fun el => el.data.count) := by
                  rw [countsOf, hfp]
                  rfl
                rcases hinv k _ _ hcounts with ⟨hall, hle2⟩
                constructor
                · intro x hx
                  rw [← hcrest, ← h2] at hx
                  exact hall x hx
                · intro hrest
                  have htl : tl ≠ [] := by
                    intro hnil
                    rw [← hcrest, ← h2, hnil] at hrest
                    exact hrest rfl
                  cases htl2 : tl with
                  | nil => exact absurd htl2 htl
                  | cons b tl2 =>
                      have hextl : ex ∈ tl :=
                        buildElementsMap_some_tail prev k ex e tl hmk hfp (by rw [htl2]; simp)
                      have hex1 : ex.data.count = 1 :=
                        hall _ (List.mem_map_of_mem _ hextl)
                      have hcf0 : f0.data.count = ex.data.count + 1 := by
                        rw [← h1]
                        rfl
                      omega

theorem graphCountInv_nil : GraphCountInv [] := by
  intro k c rest h
  simp [countsOf] at h

theorem addStackFrameToGraph_inv (op : Option Payload) (s : List Element)
    (hinv : GraphCountInv s) : GraphCountInv (addStackFrameToGraph op s) := by
  rw [addStackFrameToGraph]
  split
  · exact mergeNewElements_inv s _ (buildNewElements_count_one _) hinv
  · exact hinv

theorem runMerges_inv (ops : List (Option Payload)) : GraphCountInv (runMerges ops) := by
  rw [runMerges]
  have hfold : ∀ (l : List (Option Payload)) (s : List Element), GraphCountInv s →
      GraphCountInv (l.foldl (fun s op => addStackFrameToGraph op s) s) := by
    intro l
    induction l with
    | nil => intro s h; exact h
    | cons a rest ih =>
        intro s h
        rw [List.foldl_cons]
        exact ih _ (addStackFrameToGraph_inv a s h)
  exact hfold ops [] graphCountInv_nil

/-! ### Claim theorems -/

/-- Claim C1.  The claim states that after merging `[frame X, frame X]` (the
same identity triple twice consecutively) into an empty graph there is
exactly one node with `occurrenceCount = 2` (plus one self-edge with count
1), and in general that each node's count equals the number of frames
mapping to it.  The code violates the node part: `existingElementsMap` is
built from `prevElements` only and is never updated while a batch is
processed, so the second occurrence of the fresh id inside one sequence is
appended as a second, independent node entry.  The state after the merge
holds the id `a_S_m` twice, each entry with count 1 (three elements in all,
the self-edge correctly having count 1). -/
theorem c1_selfloop_code_behavior :
    countsOf (addStackFrameToGraph
        (some ⟨JsVal.arr [⟨some "a", some 1, some "S", some "m"⟩,
                          ⟨some "a", some 1, some "S", some "m"⟩]⟩) []) "a_S_m" = [1, 1] ∧
    countsOf (addStackFrameToGraph
        (some ⟨JsVal.arr [⟨some "a", some 1, some "S", some "m"⟩,
                          ⟨some "a", some 1, some "S", some "m"⟩]⟩) []) "a_S_m->a_S_m" = [1] ∧
    addStackFrameToGraph
        (some ⟨JsVal.arr [⟨some "a", some 1, some "S", some "m"⟩,
                          ⟨some "a", some 1, some "S", some "m"⟩]⟩) [] =
      [nodeElementOf ⟨some "a", some 1, some "S", some "m"⟩,
       edgeElementOf ⟨some "a", some 1, some "S", some "m"⟩
         ⟨some "a", some 1, some "S", some "m"⟩,
       nodeElementOf ⟨some "a", some 1, some "S", some "m"⟩] := by
  refine ⟨by decide, by decide, by decide⟩

/-- Claim C2, counterexample.  The claim states that a payload with an empty
frame list, or with frames lacking a method name, is rejected and never
broadcast.  The server's only check is
`!stackFrameData || !stackFrameData.sequence || !Array.isArray(...)`; an
empty array is truthy and is an array, and frames are never inspected, so
both payloads are accepted with 200 and broadcast unchanged. -/
theorem c2_empty_sequence_accepted :
    handleStackFrames (some ⟨JsVal.arr []⟩) =
      PostResult.accepted 200 "Stack frame data received and broadcast" ⟨JsVal.arr []⟩ ∧
    handleStackFrames (some ⟨JsVal.arr [⟨none, none, none, none⟩]⟩) =
      PostResult.accepted 200 "Stack frame data received and broadcast"
        ⟨JsVal.arr [⟨none, none, none, none⟩]⟩ := by
  exact ⟨rfl, rfl⟩

/-- Claim C2, amended.  The endpoint rejects with a 400 error exactly the
payloads that are falsy, lack a truthy `sequence`, or whose `sequence` is not
an array; every payload whose `sequence` is an array — including an empty
array, and regardless of the frames' contents — is accepted with 200 and
broadcast unchanged. -/
theorem c2_validation_characterization (frames : List CallFrame) (t : Bool) :
    handleStackFrames none = PostResult.rejected 400 "Invalid stack frame data" ∧
    handleStackFrames (some ⟨JsVal.undef⟩) =
      PostResult.rejected 400 "Invalid stack frame data" ∧
    handleStackFrames (some ⟨JsVal.other t⟩) =
      PostResult.rejected 400 "Invalid stack frame data" ∧
    handleStackFrames (some ⟨JsVal.arr frames⟩) =
      PostResult.accepted 200 "Stack frame data received and broadcast" ⟨JsVal.arr frames⟩ := by
  refine ⟨rfl, rfl, ?_, rfl⟩
  simp [handleStackFrames, JsVal.truthy, JsVal.isArray]

/-- Claim C3.  Two call frames with equal `(sourceFile, structureName,
methodName)` triples receive equal NodeIds from `generateNodeId`, regardless
of their `lineNumber` values: the identity computation never reads
`lineNumber`. -/
theorem c3_identity_ignores_line_number (f1 f2 : CallFrame)
    (h1 : f1.file = f2.file) (h2 : f1.structureName = f2.structureName)
    (h3 : f1.methodName = f2.methodName) :
    generateNodeId f1 = generateNodeId f2 := by
  simp [generateNodeId, h1, h2, h3]

/-- Witness for claim C3 at a concrete input: the same triple with line
numbers 25 and 999 yields the same NodeId. -/
theorem c3_identity_ignores_line_number_witness :
    generateNodeId ⟨some "app.js", some 25, some "UserController", some "authenticate"⟩ =
      generateNodeId ⟨some "app.js", some 999, some "UserController", some "authenticate"⟩ :=
  c3_identity_ignores_line_number _ _ rfl rfl rfl

/-- Claim C4.  The claim states that unequal `(sourceFile, structureName,
methodName)` triples always produce different NodeIds (collisions prevented
by construction).  The code's identity is the `-`-joined triple with every
non-alphanumeric character replaced by `_`, which is lossy: the distinct
triples `("a.b", "S", "m")` and `("a,b", "S", "m")` both map to the NodeId
`a_b_S_m`, so two legitimately distinct methods collapse into one node. -/
theorem c4_identity_collision :
    (⟨some "a.b", some 1, some "S", some "m"⟩ : CallFrame).file ≠
      (⟨some "a,b", some 1, some "S", some "m"⟩ : CallFrame).file ∧
    generateNodeId ⟨some "a.b", some 1, some "S", some "m"⟩ =
      generateNodeId ⟨some "a,b", some 1, some "S", some "m"⟩ ∧
    generateNodeId ⟨some "a.b", some 1, some "S", some "m"⟩ = "a_b_S_m" := by
  refine ⟨by decide, by decide, by decide⟩

/-- Claim C5, counterexample.  The claim states that re-merging a frame whose
NodeId already has a node increments the count *and overwrites the stored
line number with the incoming frame's `lineNumber`*.  Merging the triple at
line 1 and then the same triple at line 2 yields count 2 but the stored
`lineNumber` is still `1` (the update branch spreads the existing data and
regenerates the label from the existing fields), not the incoming `2`. -/
theorem c5_line_number_not_overwritten :
    (addStackFrameToGraph (some ⟨JsVal.arr [⟨some "a", some 2, some "S", some "m"⟩]⟩)
        (addStackFrameToGraph
          (some ⟨JsVal.arr [⟨some "a", some 1, some "S", some "m"⟩]⟩) [])).map
      (fun el => (el.data.count, el.data.lineNumber)) = [(2, some 1)] ∧
    (some (1 : Int)) ≠ some 2 := by
  refine ⟨by decide, by decide⟩

/-- Claim C5, amended.  For every graph state in which a frame's NodeId
already has stored elements, merging that frame writes, at the first stored
position carrying the id (and likewise for each occurrence of the frame
inside a batch, the `existingElementsMap` being built once from the
pre-merge state), the incremented copy of the *last* stored element with
that id — the entry the map holds: its occurrence count is that element's
count plus 1 and its stored line number is that element's line number.  The
incoming frame's `lineNumber` never reaches the state (the conclusion does
not depend on `f.lineNumber`), and a frame repeated within one batch
rewrites this same value rather than incrementing again.  In the ordinary
case of a single stored element per id this specializes to: count goes up by
exactly 1 and the stored line number stays what it was. -/
theorem c5_remerge_writes_map_entry (prev : List Element) (f : CallFrame) (ex : Element)
    (hex : (prev.filter (fun el => el.data.id == generateNodeId f)).getLast? = some ex) :
    (∀ u : List Element, applyNewElement (buildElementsMap prev) u (nodeElementOf f) =
        u.set (u.findIdx (fun el => el.data.id == generateNodeId f)) (updatedElementFrom ex)) ∧
    firstElemWithId (addStackFrameToGraph (some ⟨JsVal.arr [f]⟩) prev) (generateNodeId f) =
      some (updatedElementFrom ex) ∧
    (updatedElementFrom ex).data.count = ex.data.count + 1 ∧
    (updatedElementFrom ex).data.lineNumber = ex.data.lineNumber := by
  have hmap : buildElementsMap prev (generateNodeId f) = some ex := by
    rw [buildElementsMap_eq_getLast]
    exact hex
  have hexid : (ex.data.id == generateNodeId f) = true :=
    buildElementsMap_some_id prev (generateNodeId f) ex hmap
  have hne : prev.filter (fun el => el.data.id == generateNodeId f) ≠ [] :=
    buildElementsMap_some_ne_nil prev (generateNodeId f) ex hmap
  have hstep : ∀ u : List Element,
      applyNewElement (buildElementsMap prev) u (nodeElementOf f) =
        u.set (u.findIdx (fun el => el.data.id == generateNodeId f)) (updatedElementFrom ex) := by
    intro u
    rw [applyNewElement]
    have hid : (nodeElementOf f).data.id = generateNodeId f := rfl
    rw [hid, hmap]
  refine ⟨hstep, ?_, rfl, rfl⟩
  have hmerge : addStackFrameToGraph (some ⟨JsVal.arr [f]⟩) prev =
      applyNewElement (buildElementsMap prev) prev (nodeElementOf f) := rfl
  rw [hmerge, hstep prev, firstElemWithId, ← List.filter_head?]
  have hvu : ((updatedElementFrom ex).data.id == generateNodeId f) = true := hexid
  rw [filter_set_findIdx _ _ hvu prev hne]
  simp

/-- Witness for claim C5 at a concrete input: over the state holding the
single node for `("a", 1, "S", "m")`, merging the same triple at line 2
leaves the incremented copy of that stored element (count 2, line still 1)
as the element for the id. -/
theorem c5_remerge_writes_map_entry_witness :
    firstElemWithId
        (addStackFrameToGraph (some ⟨JsVal.arr [⟨some "a", some 2, some "S", some "m"⟩]⟩)
          [nodeElementOf ⟨some "a", some 1, some "S", some "m"⟩])
        (generateNodeId ⟨some "a", some 2, some "S", some "m"⟩) =
      some (updatedElementFrom (nodeElementOf ⟨some "a", some 1, some "S", some "m"⟩)) :=
  (c5_remerge_writes_map_entry [nodeElementOf ⟨some "a", some 1, some "S", some "m"⟩]
    ⟨some "a", some 2, some "S", some "m"⟩
    (nodeElementOf ⟨some "a", some 1, some "S", some "m"⟩) (by decide)).2.1

/-- Claim C6, counterexample.  The claim states that the Mermaid export
escapes or strips every structural character — including quotes and newlines
— from node labels, so the output always parses.  The export's only label
processing is `replace(/\n/g, '<br>')`: a double quote in a label is emitted
verbatim inside the quoted label text, producing the unparseable node line
`    n["a"b"];` below (four quote characters on the line). -/
theorem c6_quote_not_escaped :
    exportToMermaid
        [⟨{ id := "n", label := some "a\"b", file := none, lineNumber := none,
            structureName := none, methodName := none, count := 1,
            source := none, target := none }⟩] [] =
      "flowchart TD\n    n[\"a\"b\"];\n\n" ∧
    '"' ∈ replaceNewlines "a\"b".data := by
  refine ⟨by decide, by decide⟩

/-- Claim C6, amended.  The export's label transformation removes every raw
newline (each is replaced by `<br>`), but it does not escape or strip double
quotes: a quote survives the transformation exactly when the original label
contains one, so only labels free of double quotes yield parseable node
lines. -/
theorem c6_label_processing (l : List Char) :
    '\n' ∉ replaceNewlines l ∧ ('"' ∈ replaceNewlines l ↔ '"' ∈ l) := by
  induction l with
  | nil => simp [replaceNewlines]
  | cons c rest ih =>
      by_cases hc : c = '\n'
      · subst hc
        simp only [replaceNewlines, if_pos rfl]
        refine ⟨?_, ?_⟩
        · simp [ih.1]
        · simp [ih.2]
      · simp only [replaceNewlines, if_neg hc]
        refine ⟨?_, ?_⟩
        · simp [ih.1]
          exact fun h => hc h.symm
        · simp [ih.2]

/-- Claim C7.  Starting from the empty graph, across any sequence of merge
operations no element keyed by an id is ever removed and its occurrence
count never decreases: an element reachable as the first entry for its id
before one more `addStackFrameToGraph` is still present afterwards with a
count at least as large.  The explicit clear (`setElements([])`) is the
reset that returns the state to empty. -/
theorem c7_monotone_no_deletion :
    (∀ (ops : List (Option Payload)) (op : Option Payload) (k : String) (e : Element),
      firstElemWithId (runMerges ops) k = some e →
      ∃ e2, firstElemWithId (addStackFrameToGraph op (runMerges ops)) k = some e2 ∧
        e.data.count ≤ e2.data.count) ∧
    clearGraph = [] := by
  constructor
  · intro ops op k e h
    rw [addStackFrameToGraph]
    split
    · exact mergeNewElements_mono (runMerges ops) _ (buildNewElements_count_one _)
        (runMerges_inv ops) k e h
    · exact ⟨e, h, le_refl _⟩
  · rfl

/-- Witness for claim C7 at a concrete input: after one merge of the frame
`("a", 1, "S", "m")` the node `a_S_m` is present with count 1, and one more
merge of the same payload keeps it present with a count at least 1. -/
theorem c7_monotone_no_deletion_witness :
    ∃ e2, firstElemWithId
        (addStackFrameToGraph (some ⟨JsVal.arr [⟨some "a", some 1, some "S", some "m"⟩]⟩)
          (runMerges [some ⟨JsVal.arr [⟨some "a", some 1, some "S", some "m"⟩]⟩]))
        "a_S_m" = some e2 ∧
      (nodeElementOf ⟨some "a", some 1, some "S", some "m"⟩).data.count ≤ e2.data.count :=
  c7_monotone_no_deletion.1
    [some ⟨JsVal.arr [⟨some "a", some 1, some "S", some "m"⟩]⟩]
    (some ⟨JsVal.arr [⟨some "a", some 1, some "S", some "m"⟩]⟩)
    "a_S_m" (nodeElementOf ⟨some "a", some 1, some "S", some "m"⟩) (by decide)

/-- Claim C8.  For every occurrence count in `[1, ∞)` exactly one of the five
node heat selectors and exactly one of the five edge heat selectors matches
(the boundaries ≤3, 4-7, 8-15, 16-30, >30 partition the positive integers
with no gaps and no overlaps), and the tier assignment is monotone in the
count. -/
theorem c8_heat_tiers_partition (c c2 : Nat) (h1 : 1 ≤ c) (h2 : c ≤ c2) :
    nodeHeatMatchCount c = 1 ∧ edgeHeatMatchCount c = 1 ∧
    nodeHeatTier c ≤ nodeHeatTier c2 ∧ edgeHeatTier c ≤ edgeHeatTier c2 := by
  simp only [nodeHeatMatchCount, edgeHeatMatchCount, nodeHeatTier, edgeHeatTier,
    nodeSelVeryLow, nodeSelLow, nodeSelMedium, nodeSelHigh, nodeSelVeryHigh,
    edgeSelVeryLow, edgeSelLow, edgeSelMedium, edgeSelHigh, edgeSelVeryHigh,
    Bool.and_eq_true, decide_eq_true_eq]
  split_ifs <;> omega

/-- Witness for claim C8 at concrete counts 3 and 31: both match exactly one
selector and the tier ordering respects 3 ≤ 31. -/
theorem c8_heat_tiers_partition_witness :
    nodeHeatMatchCount 3 = 1 ∧ edgeHeatMatchCount 3 = 1 ∧
    nodeHeatTier 3 ≤ nodeHeatTier 31 ∧ edgeHeatTier 3 ≤ edgeHeatTier 31 :=
  c8_heat_tiers_partition 3 31 (by decide) (by decide)

/-- Claim C9.  Every invalid input to the viewer merge — a falsy value, a
payload without a `sequence` field, or one whose `sequence` is not an array —
leaves the element state exactly unchanged: the guard returns before any
element is created or any counter incremented. -/
theorem c9_invalid_input_is_noop (elements : List Element) :
    addStackFrameToGraph none elements = elements ∧
    addStackFrameToGraph (some ⟨JsVal.undef⟩) elements = elements ∧
    ∀ t : Bool, addStackFrameToGraph (some ⟨JsVal.other t⟩) elements = elements := by
  refine ⟨rfl, rfl, fun t => ?_⟩
  simp [addStackFrameToGraph, isValidStackFrameData, JsVal.truthy, JsVal.isArray]

/-- Claim C10.  The Mermaid export's identifier cleaning replaces every
character outside `[a-zA-Z0-9]` with the digit `0`; the mapping is not
injective: the two distinct graph node ids `a_b_S_m` and `a0b_S_m` (produced
by `generateNodeId` from distinct triples) clean to the same Mermaid
identifier `a0b0S0m`, so the exported diagram declares the same identifier
twice — the two nodes collapse. -/
theorem c10_mermaid_id_collapse :
    (∀ (c : Char) (s : List Char), isAlphaNumChar c = false → c ∉ cleanMermaidId s) ∧
    generateNodeId ⟨some "a.b", some 1, some "S", some "m"⟩ ≠
      generateNodeId ⟨some "a0b", some 1, some "S", some "m"⟩ ∧
    cleanMermaidId (generateNodeId ⟨some "a.b", some 1, some "S", some "m"⟩).data =
      cleanMermaidId (generateNodeId ⟨some "a0b", some 1, some "S", some "m"⟩).data ∧
    exportToMermaid [nodeElementOf ⟨some "a.b", some 1, some "S", some "m"⟩,
                     nodeElementOf ⟨some "a0b", some 1, some "S", some "m"⟩] [] =
      "flowchart TD\n    a0b0S0m[\"a.b:1<br>S:m()\"];\n    a0b0S0m[\"a0b:1<br>S:m()\"];\n\n" := by
  refine ⟨?_, by decide, by decide, by decide⟩
  intro c s h hmem
  simp only [cleanMermaidId, List.mem_map] at hmem
  obtain ⟨a, _, ha⟩ := hmem
  by_cases hA : isAlphaNumChar a
  · rw [if_pos hA] at ha
    subst ha
    simp [hA] at h
  · rw [if_neg hA] at ha
    subst ha
    simp [isAlphaNumChar] at h

/-- Witness for claim C10 at a concrete input: the non-alphanumeric character
`.` never appears in a cleaned identifier. -/
theorem c10_mermaid_id_collapse_witness :
    '.' ∉ cleanMermaidId ['.', 'a'] :=
  c10_mermaid_id_collapse.1 '.' ['.', 'a'] (by decide)
